import Mathlib

set_option maxHeartbeats 1000000

/-!
Shallow embedding of `src/server.py` (an MCP proxy for the Intervals.icu and
Strava APIs).  Python dictionaries become `JSON.obj` with insertion-ordered
field lists; the network is an oracle (`StravaNet`, one `HTTPResponse` per
outbound call, indexed by call order); every function additionally returns the
list of outbound HTTP requests it issued (`Event`), so that "performs no
network call" is the statement that this trace is empty.  A Python-level
unhandled exception (an `AttributeError` from `.get` on a non-dict) is
modelled as result `none`.
-/

/-- JSON values, the return type of `r.json()` and the shape of every tool
result.  Object fields keep insertion order, like Python dicts. -/
inductive JSON where
  | null
  | bool (b : Bool)
  | num (n : Int)
  | str (s : String)
  | arr (elems : List JSON)
  | obj (fields : List (String × JSON))

mutual
/-- Python `str()` as used by the f-string building the bearer header in
`_strava_get_activity`.  In every path of the claims the token is a string;
containers are rendered structurally (an approximation of Python's repr that
no claim exercises). -/
def pyStr : JSON → String
  | .null => "None"
  | .bool true => "True"
  | .bool false => "False"
  | .num n => toString n
  | .str s => s
  | .arr xs => "[" ++ String.intercalate ", " (pyStrList xs) ++ "]"
  | .obj fs => "\x7b" ++ String.intercalate ", " (pyStrKVs fs) ++ "\x7d"

def pyStrList : List JSON → List String
  | [] => []
  | x :: xs => pyStr x :: pyStrList xs

def pyStrKVs : List (String × JSON) → List String
  | [] => []
  | (k, v) :: fs => ("\x27" ++ k ++ "\x27: " ++ pyStr v) :: pyStrKVs fs
end

/-- First value bound to a key in an ordered field list (Python dict lookup;
the dicts built by the code never repeat a key). -/
def lookupField : List (String × JSON) → String → Option JSON
  | [], _ => none
  | (k, v) :: rest, key => if k = key then some v else lookupField rest key

/-- Python `d.get(key)` on a JSON value known to be a dict; `none` when the
value is not a dict or the key is absent. -/
def objGet : JSON → String → Option JSON
  | JSON.obj fs, key => lookupField fs key
  | _, _ => none

/-- Python `key in d` for a dict result. -/
def hasKey (j : JSON) (k : String) : Bool :=
  (objGet j k).isSome

/-- Python `d.get(key, "")`: the raw JSON value, or the empty string. -/
def getOrEmptyStr (fs : List (String × JSON)) (k : String) : JSON :=
  match lookupField fs k with
  | some v => v
  | none => JSON.str ""

/-- Body of an HTTP response: either `r.json()` parses (to `j`) or raises and
`r.text` is the raw text. -/
inductive Body where
  | json (j : JSON)
  | text (t : String)

/-- An HTTP response delivered by the network oracle. -/
structure HTTPResponse where
  status : Nat
  body : Body

/-- The `try: data = r.json() except: data = {"raw": r.text}` idiom that every
call site uses. -/
def parsedData (r : HTTPResponse) : JSON :=
  match r.body with
  | .json j => j
  | .text t => JSON.obj [("raw", JSON.str t)]

/-- Module-level URL constants of `server.py`. -/
def BASE_URL : String := "https://intervals.icu"

def STRAVA_BASE_URL : String := "https://www.strava.com/api/v3"

def STRAVA_OAUTH_URL : String := "https://www.strava.com/oauth/token"

/-- The Strava credential environment (`STRAVA_*` module globals, read from
the process environment at import time; empty string = unset). -/
structure StravaEnv where
  clientId : String
  clientSecret : String
  accessToken : String
  refreshToken : String

/-- Network oracle for the Strava side: the response to the n-th token-refresh
POST and to the n-th resource GET issued during one accessor call. -/
structure StravaNet where
  refreshResp : Nat → HTTPResponse
  getResp : Nat → HTTPResponse

/-- One outbound HTTP request, as recorded in a call's trace. -/
inductive Event where
  | refreshPost (url : String) (payload : List (String × String))
  | stravaGet (url : String) (bearer : String)
  | primGet (url : String) (params : List (String × String)) (authUser authPass : String)
  | primPost (url : String) (payload : JSON) (authUser authPass : String)

/-- Number of Strava resource GETs in a trace. -/
def countGets : List Event → Nat
  | [] => 0
  | .stravaGet _ _ :: tr => countGets tr + 1
  | _ :: tr => countGets tr

/-- Number of token-refresh POSTs in a trace. -/
def countRefreshes : List Event → Nat
  | [] => 0
  | .refreshPost _ _ :: tr => countRefreshes tr + 1
  | _ :: tr => countRefreshes tr

/-- The Strava resource GETs of a trace, in order, as (url, bearer header). -/
def stravaGets : List Event → List (String × String)
  | [] => []
  | .stravaGet u b :: tr => (u, b) :: stravaGets tr
  | _ :: tr => stravaGets tr

/-- The function `_missing_strava_config` of `server.py`. -/
def missing_strava_config (env : StravaEnv) : List String :=
  (if env.clientId = "" then ["STRAVA_CLIENT_ID"] else []) ++
  (if env.clientSecret = "" then ["STRAVA_CLIENT_SECRET"] else []) ++
  (if env.refreshToken = "" ∧ env.accessToken = ""
     then ["STRAVA_REFRESH_TOKEN or STRAVA_ACCESS_TOKEN"] else [])

/-- Form payload of the token-refresh POST. -/
def refreshPayload (env : StravaEnv) : List (String × String) :=
  [("client_id", env.clientId),
   ("client_secret", env.clientSecret),
   ("refresh_token", env.refreshToken),
   ("grant_type", "refresh_token")]

/-- Body of `_refresh_strava_token` past its missing-credential guard: the
POST to the OAuth endpoint and the shaping of its response. -/
def refresh_strava_token_unguarded (env : StravaEnv) (resp : HTTPResponse) :
    JSON × List Event :=
  let ev := Event.refreshPost STRAVA_OAUTH_URL (refreshPayload env)
  let data := parsedData resp
  if 400 ≤ resp.status then
    (JSON.obj [("status", JSON.num resp.status),
               ("error", JSON.str "Failed to refresh Strava token"),
               ("data", data)], [ev])
  else
    (JSON.obj [("status", JSON.num resp.status), ("data", data)], [ev])

/-- The function `_refresh_strava_token` of `server.py`.  `resp` is the
response the network would give to the refresh POST (consumed only when the
POST is actually issued, i.e. when the guard passes). -/
def refresh_strava_token (env : StravaEnv) (resp : HTTPResponse) :
    JSON × List Event :=
  if env.clientId = "" ∨ env.clientSecret = "" ∨ env.refreshToken = "" then
    (JSON.obj [("error",
      JSON.str "Missing STRAVA_CLIENT_ID/STRAVA_CLIENT_SECRET/STRAVA_REFRESH_TOKEN")],
     [])
  else
    refresh_strava_token_unguarded env resp

/-- Python `refreshed.get("data", \x7b\x7d).get("access_token", "")` followed by the
f-string coercion of the token: `none` models the `AttributeError` raised when
the "data" value is not a dict. -/
def tokenFromRefreshed (res : JSON) : Option String :=
  match objGet res "data" with
  | none => some ""
  | some (JSON.obj fs) =>
      some (match lookupField fs "access_token" with
            | some (JSON.str s) => s
            | some v => pyStr v
            | none => "")
  | some _ => none

/-- Final response shaping of `_strava_get_activity`: the
`response = {"status": ..., "data": ...}` block plus the conditional
`refreshed_token` attachment.  `none` models the `AttributeError` when a
recorded refresh result maps "data" to a non-dict (unreachable from the
accessor, which would already have failed extracting the token). -/
def stravaShape (r : HTTPResponse) (refreshed : Option JSON) (evs : List Event) :
    Option JSON × List Event :=
  let data := parsedData r
  let base := [("status", JSON.num r.status), ("data", data)]
  match refreshed with
  | none => (some (JSON.obj base), evs)
  | some res =>
    if hasKey res "data" then
      match objGet res "data" with
      | some (JSON.obj fs) =>
          (some (JSON.obj (base ++
            [("refreshed_token", JSON.obj
              [("access_token", getOrEmptyStr fs "access_token"),
               ("refresh_token", getOrEmptyStr fs "refresh_token"),
               ("expires_at", getOrEmptyStr fs "expires_at")])])), evs)
      | _ => (none, evs)
    else (some (JSON.obj base), evs)

/-- URL of the first Strava resource GET (with the query parameter). -/
def stravaUrlFirst (activity_id : String) : String :=
  STRAVA_BASE_URL ++ "/activities/" ++ activity_id ++ "?include_all_efforts=true"

/-- URL of the 401-retry Strava resource GET (no query parameter). -/
def stravaUrlRetry (activity_id : String) : String :=
  STRAVA_BASE_URL ++ "/activities/" ++ activity_id

/-- Continuation of `_strava_get_activity` after token acquisition: first GET
with `include_all_efforts=true`, the 401-triggered refresh-and-retry (retry
without the query parameter), and response shaping.  `refresh` is the refresh
unit (a parameter so that replacing it by its unguarded body is a statement);
`ridx` is the index of the next refresh POST in the oracle. -/
def strava_core_after (refresh : StravaEnv → HTTPResponse → JSON × List Event)
    (env : StravaEnv) (net : StravaNet) (activity_id : String)
    (token : String) (refreshed0 : Option JSON) (ridx : Nat)
    (evs0 : List Event) : Option JSON × List Event :=
  let url1 := stravaUrlFirst activity_id
  let r1 := net.getResp 0
  let evs1 := evs0 ++ [Event.stravaGet url1 ("Bearer " ++ token)]
  if r1.status = 401 ∧ env.refreshToken ≠ "" then
    match refresh env (net.refreshResp ridx) with
    | (res2, evsR) =>
      let evs2 := evs1 ++ evsR
      if hasKey res2 "error" then
        (some (JSON.obj [("status", JSON.num r1.status),
                         ("error", JSON.str "Unauthorized from Strava"),
                         ("refresh", res2)]), evs2)
      else
        match tokenFromRefreshed res2 with
        | none => (none, evs2)
        | some tok2 =>
          let url2 := stravaUrlRetry activity_id
          let r2 := net.getResp 1
          let evs3 := evs2 ++ [Event.stravaGet url2 ("Bearer " ++ tok2)]
          stravaShape r2 (some res2) evs3
  else
    stravaShape r1 refreshed0 evs1

/-- The function `_strava_get_activity` of `server.py`, parameterized by the
refresh unit it calls. -/
def strava_core (refresh : StravaEnv → HTTPResponse → JSON × List Event)
    (env : StravaEnv) (net : StravaNet) (activity_id : String) :
    Option JSON × List Event :=
  let missing := missing_strava_config env
  if missing = [] then
    if env.accessToken = "" ∧ env.refreshToken ≠ "" then
      match refresh env (net.refreshResp 0) with
      | (res, evs) =>
        if hasKey res "error" then (some res, evs)
        else
          match tokenFromRefreshed res with
          | none => (none, evs)
          | some tok => strava_core_after refresh env net activity_id tok (some res) 1 evs
    else
      strava_core_after refresh env net activity_id env.accessToken none 0 []
  else
    (some (JSON.obj [("error",
       JSON.str ("Missing env vars: " ++ String.intercalate ", " missing))]), [])

/-- The function `_strava_get_activity` of `server.py` (the Secondary-API
Accessor): config gate, token acquisition (refreshing when no static access
token is configured), first GET, bounded 401 retry, response shaping. -/
def strava_get_activity (env : StravaEnv) (net : StravaNet) (activity_id : String) :
    Option JSON × List Event :=
  strava_core refresh_strava_token env net activity_id

/-- A proleptic-Gregorian calendar date, the value of `berlin_today().date()`.
The clock is injected: a tool that calls `berlin_today` takes the current
civil date in the Europe/Berlin time zone as an explicit argument. -/
structure CivilDate where
  year : Int
  month : Int
  day : Int

/-- Serial day number of a civil date (days since 1970-01-01), the standard
civil-calendar conversion underlying Python `date` arithmetic. -/
def daysFromCivil (d : CivilDate) : Int :=
  let y := if d.month ≤ 2 then d.year - 1 else d.year
  let era := Int.fdiv y 400
  let yoe := y - era * 400
  let mp := if 2 < d.month then d.month - 3 else d.month + 9
  let doy := Int.fdiv (153 * mp + 2) 5 + d.day - 1
  let doe := yoe * 365 + Int.fdiv yoe 4 - Int.fdiv yoe 100 + doy
  era * 146097 + doe - 719468

/-- Civil date of a serial day number (inverse of `daysFromCivil`). -/
def civilFromDays (z0 : Int) : CivilDate :=
  let z := z0 + 719468
  let era := Int.fdiv z 146097
  let doe := z - era * 146097
  let yoe := Int.fdiv (doe - Int.fdiv doe 1460 + Int.fdiv doe 36524 - Int.fdiv doe 146096) 365
  let y := yoe + era * 400
  let doy := doe - (365 * yoe + Int.fdiv yoe 4 - Int.fdiv yoe 100)
  let mp := Int.fdiv (5 * doy + 2) 153
  let day := doy - Int.fdiv (153 * mp + 2) 5 + 1
  let m := if mp < 10 then mp + 3 else mp - 9
  ⟨if m ≤ 2 then y + 1 else y, m, day⟩

/-- Python `date - timedelta(days=n)`: exact calendar subtraction. -/
def subDays (d : CivilDate) (n : Nat) : CivilDate :=
  civilFromDays (daysFromCivil d - n)

/-- Left-pad the decimal rendering of a non-negative integer with zeros. -/
def zeroPad (w : Nat) (n : Int) : String :=
  let s := toString n.toNat
  if s.length < w then String.mk (List.replicate (w - s.length) '0') ++ s
  else s

/-- Python `date.isoformat()`: `YYYY-MM-DD`, zero padded. -/
def isoformat (d : CivilDate) : String :=
  zeroPad 4 d.year ++ "-" ++ zeroPad 2 d.month ++ "-" ++ zeroPad 2 d.day

/-- Inclusive codepoint ranges of the Unicode decimal digits (general
category Nd): the characters Python 3's `\d` matches in a str pattern. -/
def ndRanges : List (Nat × Nat) :=
  [(48, 57), (1632, 1641), (1776, 1785), (1984, 1993), (2406, 2415),
   (2534, 2543), (2662, 2671), (2790, 2799), (2918, 2927), (3046, 3055),
   (3174, 3183), (3302, 3311), (3430, 3439), (3558, 3567), (3664, 3673),
   (3792, 3801), (3872, 3881), (4160, 4169), (4240, 4249), (6112, 6121),
   (6160, 6169), (6470, 6479), (6608, 6617), (6784, 6793), (6800, 6809),
   (6992, 7001), (7088, 7097), (7232, 7241), (7248, 7257), (42528, 42537),
   (43216, 43225), (43264, 43273), (43472, 43481), (43504, 43513),
   (43600, 43609), (44016, 44025), (65296, 65305), (66720, 66729),
   (68912, 68921), (69734, 69743), (69872, 69881), (69942, 69951),
   (70096, 70105), (70384, 70393), (70736, 70745), (70864, 70873),
   (71248, 71257), (71360, 71369), (71472, 71481), (71904, 71913),
   (72016, 72025), (72784, 72793), (73040, 73049), (73120, 73129),
   (92768, 92777), (92864, 92873), (93008, 93017), (120782, 120831),
   (123200, 123209), (123632, 123641), (125264, 125273), (130032, 130041)]

/-- Python `\d` for str patterns: any Unicode decimal digit (category Nd). -/
def isUnicodeDigit (c : Char) : Bool :=
  ndRanges.any fun p => decide (p.1 ≤ c.toNat) && decide (c.toNat ≤ p.2)

/-- Matches `\d\x7b4\x7d-\d\x7b2\x7d-\d\x7b2\x7d` against the whole string
(`\d` = Unicode decimal digit, as in the source pattern). -/
def dateCoreMatch (s : String) : Bool :=
  match s.toList with
  | [y1, y2, y3, y4, h1, m1, m2, h2, d1, d2] =>
      isUnicodeDigit y1 && isUnicodeDigit y2 && isUnicodeDigit y3 &&
      isUnicodeDigit y4 && h1 == '-' && isUnicodeDigit m1 && isUnicodeDigit m2 &&
      h2 == '-' && isUnicodeDigit d1 && isUnicodeDigit d2
  | _ => false

/-- Matches `\d\x7b4\x7d-\d\x7b2\x7d-\d\x7b2\x7dT\d\x7b2\x7d:\d\x7b2\x7d:\d\x7b2\x7d`
against the whole string (`\d` = Unicode decimal digit). -/
def datetimeCoreMatch (s : String) : Bool :=
  match s.toList with
  | [y1, y2, y3, y4, h1, m1, m2, h2, d1, d2, t, a1, a2, c1, b1, b2, c2, s1, s2] =>
      isUnicodeDigit y1 && isUnicodeDigit y2 && isUnicodeDigit y3 &&
      isUnicodeDigit y4 && h1 == '-' && isUnicodeDigit m1 && isUnicodeDigit m2 &&
      h2 == '-' && isUnicodeDigit d1 && isUnicodeDigit d2 &&
      t == 'T' && isUnicodeDigit a1 && isUnicodeDigit a2 && c1 == ':' &&
      isUnicodeDigit b1 && isUnicodeDigit b2 && c2 == ':' &&
      isUnicodeDigit s1 && isUnicodeDigit s2
  | _ => false

/-- Python `re.match` of an `^...$`-anchored pattern: the pattern must span
the whole string, except that `$` also matches just before one final
newline. -/
def pyAnchoredMatch (core : String → Bool) (s : String) : Bool :=
  core s ||
    (match s.toList.getLast? with
     | some c => (c == '\n') && core ⟨s.toList.dropLast⟩
     | none => false)

/-- Python `DATE_RE.match(s)` truthiness for `^\d\x7b4\x7d-\d\x7b2\x7d-\d\x7b2\x7d$`. -/
def DATE_RE_match (s : String) : Bool :=
  pyAnchoredMatch dateCoreMatch s

/-- Python `DATETIME_RE.match(s)` truthiness. -/
def DATETIME_RE_match (s : String) : Bool :=
  pyAnchoredMatch datetimeCoreMatch s

/-- The primary (Intervals.icu) credential environment: module globals
`API_KEY` and `ATHLETE_ID` (empty string = unset). -/
structure PrimEnv where
  apiKey : String
  athleteId : String

/-- A dict of string query parameters, as embedded in a response envelope. -/
def paramsJSON (ps : List (String × String)) : JSON :=
  JSON.obj (ps.map fun kv => (kv.1, JSON.str kv.2))

/-- The `\x7b"error": "Missing INTERVALS_API_KEY env var"\x7d` value every tool
returns when the primary API key is unset. -/
def errMissingKey : JSON :=
  JSON.obj [("error", JSON.str "Missing INTERVALS_API_KEY env var")]

/-- The validation error of `get_events` and `get_wellness_records`. -/
def dateFormatErr : JSON :=
  JSON.obj [("error", JSON.str "Dates must be in YYYY-MM-DD format")]

/-- The validation error of `create_event`. -/
def datetimeFormatErr : JSON :=
  JSON.obj [("error", JSON.str "start_date_local must be YYYY-MM-DDTHH:MM:SS")]

/-- Primary-API events endpoint for an athlete. -/
def eventsUrl (athleteId : String) : String :=
  BASE_URL ++ "/api/v1/athlete/" ++ athleteId ++ "/events"

/-- Primary-API wellness endpoint for an athlete. -/
def wellnessUrl (athleteId : String) : String :=
  BASE_URL ++ "/api/v1/athlete/" ++ athleteId ++ "/wellness"

/-- Primary-API activity endpoint. -/
def activityUrl (activity_id : String) : String :=
  BASE_URL ++ "/api/v1/activity/" ++ activity_id

/-- Primary-API activity comments endpoint. -/
def commentsUrl (activity_id : String) : String :=
  BASE_URL ++ "/api/v1/activity/" ++ activity_id ++ "/messages"

/-- Python `d.get(k) == s` for a string literal `s`. -/
def jsonIsStr (o : Option JSON) (s : String) : Bool :=
  match o with
  | some (JSON.str t) => t == s
  | _ => false

/-- The tool `get_last4w_events` of `server.py`.  `today` is the civil date
`berlin_today().date()` (the Europe/Berlin clock, injected); `resp` is the
network oracle for the single GET. -/
def get_last4w_events (env : PrimEnv) (today : CivilDate) (resp : HTTPResponse) :
    JSON × List Event :=
  if env.apiKey = "" then (errMissingKey, [])
  else
    let newest := today
    let oldest := subDays today 28
    let url := eventsUrl env.athleteId
    let params := [("oldest", isoformat oldest), ("newest", isoformat newest)]
    (JSON.obj [("request", JSON.obj [("url", JSON.str url),
                                     ("params", paramsJSON params),
                                     ("status", JSON.num resp.status)]),
               ("data", parsedData resp)],
     [Event.primGet url params "API_KEY" env.apiKey])

/-- The tool `get_events` of `server.py`. -/
def get_events (env : PrimEnv) (resp : HTTPResponse) (oldest newest : String) :
    JSON × List Event :=
  if env.apiKey = "" then (errMissingKey, [])
  else if !DATE_RE_match oldest || !DATE_RE_match newest then
    (dateFormatErr, [])
  else
    let url := eventsUrl env.athleteId
    let params := [("oldest", oldest), ("newest", newest)]
    (JSON.obj [("status", JSON.num resp.status),
               ("request", JSON.obj [("params", paramsJSON params)]),
               ("data", parsedData resp)],
     [Event.primGet url params "API_KEY" env.apiKey])

/-- The tool `create_event` of `server.py`. -/
def create_event (env : PrimEnv) (resp : HTTPResponse)
    (category start_date_local type name description : String) :
    JSON × List Event :=
  if env.apiKey = "" then (errMissingKey, [])
  else if !DATETIME_RE_match start_date_local then
    (datetimeFormatErr, [])
  else
    let payload := JSON.obj [("category", JSON.str category),
                             ("start_date_local", JSON.str start_date_local),
                             ("type", JSON.str type),
                             ("name", JSON.str name),
                             ("description", JSON.str description)]
    let url := eventsUrl env.athleteId
    (JSON.obj [("status", JSON.num resp.status),
               ("request", JSON.obj [("url", JSON.str url), ("payload", payload)]),
               ("data", parsedData resp)],
     [Event.primPost url payload "API_KEY" env.apiKey])

/-- The tool `get_wellness_records` of `server.py`. -/
def get_wellness_records (env : PrimEnv) (resp : HTTPResponse) (oldest newest : String) :
    JSON × List Event :=
  if env.apiKey = "" then (errMissingKey, [])
  else if !DATE_RE_match oldest || !DATE_RE_match newest then
    (dateFormatErr, [])
  else
    let url := wellnessUrl env.athleteId
    let params := [("oldest", oldest), ("newest", newest)]
    (JSON.obj [("status", JSON.num resp.status),
               ("request", JSON.obj [("params", paramsJSON params)]),
               ("data", parsedData resp)],
     [Event.primGet url params "API_KEY" env.apiKey])

/-- The sentinel test of `get_activity`: is the primary response body the
STRAVA stub (a dict whose `source` is `"STRAVA"` and whose `_note` is the
fixed sentence)? -/
def isStravaStub (data : JSON) : Bool :=
  match data with
  | JSON.obj fs =>
      jsonIsStr (lookupField fs "source") "STRAVA" &&
      jsonIsStr (lookupField fs "_note") "STRAVA activities are not available via the API"
  | _ => false

/-- The tool `get_activity` of `server.py`: primary GET, then (only when the
body is the STRAVA stub) the Secondary-API Accessor for the same id.  `none`
models a Python exception propagating out of the accessor. -/
def get_activity (env : PrimEnv) (resp : HTTPResponse)
    (senv : StravaEnv) (snet : StravaNet) (activity_id : String) :
    Option JSON × List Event :=
  if env.apiKey = "" then (some errMissingKey, [])
  else
    let url := activityUrl activity_id
    let data := parsedData resp
    let evs := [Event.primGet url [] "API_KEY" env.apiKey]
    if isStravaStub data then
      match strava_get_activity senv snet activity_id with
      | (some strava, sevs) =>
          (some (JSON.obj [("status", JSON.num resp.status), ("data", data),
                           ("strava", strava)]), evs ++ sevs)
      | (none, sevs) => (none, evs ++ sevs)
    else
      (some (JSON.obj [("status", JSON.num resp.status), ("data", data)]), evs)

/-- The tool `get_activity_comments` of `server.py`. -/
def get_activity_comments (env : PrimEnv) (resp : HTTPResponse) (activity_id : String) :
    JSON × List Event :=
  if env.apiKey = "" then (errMissingKey, [])
  else
    let url := commentsUrl activity_id
    (JSON.obj [("status", JSON.num resp.status), ("data", parsedData resp)],
     [Event.primGet url [] "API_KEY" env.apiKey])

/-- Tests whether a JSON value is a dict. -/
def isObjJSON : JSON → Bool
  | JSON.obj _ => true
  | _ => false

/-- A token-refresh response that the code treats as usable: status below 400
(so `_refresh_strava_token` does not return its error shape) and a JSON-object
body (so the Python attribute accesses on it are defined). -/
def refreshSucceeds (r : HTTPResponse) : Bool :=
  decide (r.status < 400) && isObjJSON (parsedData r)

/-- The access token carried by a refresh response body (after the f-string
coercion applied by the code); empty when absent. -/
def accessTokenOf (r : HTTPResponse) : String :=
  match parsedData r with
  | JSON.obj fs =>
      (match lookupField fs "access_token" with
       | some (JSON.str s) => s
       | some v => pyStr v
       | none => "")
  | _ => ""

/-- The `refreshed_token` triple the accessor attaches when a refresh
occurred: the raw `access_token` / `refresh_token` / `expires_at` values of
the refresh response body, empty strings when absent. -/
def tripleOf (r : HTTPResponse) : JSON :=
  match parsedData r with
  | JSON.obj fs =>
      JSON.obj [("access_token", getOrEmptyStr fs "access_token"),
                ("refresh_token", getOrEmptyStr fs "refresh_token"),
                ("expires_at", getOrEmptyStr fs "expires_at")]
  | _ => JSON.null

/-- The fixed missing-credential error of `_refresh_strava_token`. -/
def stravaConfigErr : JSON :=
  JSON.obj [("error",
    JSON.str "Missing STRAVA_CLIENT_ID/STRAVA_CLIENT_SECRET/STRAVA_REFRESH_TOKEN")]

/-- Sample OAuth response: a successful refresh carrying a full triple. -/
def sampleRefreshOk : HTTPResponse :=
  ⟨200, Body.json (JSON.obj [("access_token", JSON.str "tokNew"),
                             ("refresh_token", JSON.str "rtNew"),
                             ("expires_at", JSON.num 777)])⟩

/-- Sample OAuth response: a failed refresh (status 400). -/
def sampleRefreshBad : HTTPResponse :=
  ⟨400, Body.json (JSON.obj [("message", JSON.str "Bad Request")])⟩

/-- Sample resource response: success. -/
def sampleAct : HTTPResponse :=
  ⟨200, Body.json (JSON.obj [("id", JSON.num 42)])⟩

/-- Sample resource response: unauthorized. -/
def sampleAct401 : HTTPResponse :=
  ⟨401, Body.json (JSON.obj [("message", JSON.str "Unauthorized")])⟩

/-- Sample primary response: the STRAVA stub body that triggers the
cross-service dispatch of `get_activity`. -/
def sampleStub : HTTPResponse :=
  ⟨200, Body.json (JSON.obj
    [("source", JSON.str "STRAVA"),
     ("_note", JSON.str "STRAVA activities are not available via the API")])⟩

/-- Strava environment with every credential set. -/
def envFull : StravaEnv := ⟨"cid", "csec", "atok", "rtok"⟩

/-- Strava environment with no static access token (refresh-on-acquire). -/
def envNoAccess : StravaEnv := ⟨"cid", "csec", "", "rtok"⟩

/-- Oracle: every GET succeeds, every refresh succeeds. -/
def net200 : StravaNet := ⟨fun _ => sampleRefreshOk, fun _ => sampleAct⟩

/-- Oracle: first GET is 401, retry succeeds, refreshes succeed. -/
def net401 : StravaNet :=
  ⟨fun _ => sampleRefreshOk, fun n => if n = 0 then sampleAct401 else sampleAct⟩

/-- Oracle: GETs are 401, the first refresh succeeds, later refreshes fail. -/
def net401badRefresh : StravaNet :=
  ⟨fun n => if n = 0 then sampleRefreshOk else sampleRefreshBad,
   fun _ => sampleAct401⟩

/-! Helper lemmas about the embedded definitions. -/

/-- The Strava config gate passes exactly when client id and secret are set
and at least one of refresh/access token is set. -/
theorem missing_nil_iff (env : StravaEnv) :
    missing_strava_config env = [] ↔
      (env.clientId ≠ "" ∧ env.clientSecret ≠ "" ∧
       (env.refreshToken ≠ "" ∨ env.accessToken ≠ "")) := by
  unfold missing_strava_config
  constructor
  · intro h
    split_ifs at h <;> first
      | (simp_all; tauto)
      | simp_all
  · rintro ⟨h1, h2, h3⟩
    rw [if_neg h1, if_neg h2, if_neg (by tauto)]
    rfl

/-- A JSON value passing `isObjJSON` is an object. -/
theorem isObjJSON_exists {j : JSON} (h : isObjJSON j = true) :
    ∃ fs, j = JSON.obj fs := by
  cases j <;> simp_all [isObjJSON]

/-- Shape of a successful token refresh: one POST, a status/data result. -/
theorem refresh_ok {env : StravaEnv} {r : HTTPResponse}
    (hci : env.clientId ≠ "") (hcs : env.clientSecret ≠ "") (hrt : env.refreshToken ≠ "")
    (hok : refreshSucceeds r = true) :
    refresh_strava_token env r =
      (JSON.obj [("status", JSON.num r.status), ("data", parsedData r)],
       [Event.refreshPost STRAVA_OAUTH_URL (refreshPayload env)]) := by
  simp only [refreshSucceeds, Bool.and_eq_true, decide_eq_true_eq] at hok
  have hlt : ¬ (400 ≤ r.status) := by omega
  unfold refresh_strava_token refresh_strava_token_unguarded
  rw [if_neg (by tauto), if_neg hlt]

/-- A successful refresh result carries no "error" key. -/
theorem hasKey_statusData (a b : JSON) :
    hasKey (JSON.obj [("status", a), ("data", b)]) "error" = false := by
  simp [hasKey, objGet, lookupField]

/-- Token extraction from a successful refresh result with an object body. -/
theorem tokenFromRefreshed_statusData (r : HTTPResponse) (fs : List (String × JSON))
    (h : parsedData r = JSON.obj fs) :
    tokenFromRefreshed (JSON.obj [("status", JSON.num r.status), ("data", parsedData r)]) =
      some (accessTokenOf r) := by
  simp [tokenFromRefreshed, objGet, lookupField, h, accessTokenOf]

/-- Response shaping when a successful refresh with an object body was
recorded: the envelope gains the `refreshed_token` triple. -/
theorem stravaShape_refreshed (r2 r : HTTPResponse) (evs : List Event)
    (fs : List (String × JSON)) (h : parsedData r = JSON.obj fs) :
    stravaShape r2 (some (JSON.obj [("status", JSON.num r.status), ("data", parsedData r)])) evs =
      (some (JSON.obj [("status", JSON.num r2.status), ("data", parsedData r2),
                       ("refreshed_token", tripleOf r)]), evs) := by
  simp [stravaShape, hasKey, objGet, lookupField, h, tripleOf]

/-- Accessor run, static access token, first GET not 401: one GET, no
refresh, plain envelope. -/
theorem strava_run_static_noRetry (env : StravaEnv) (net : StravaNet) (id : String)
    (hci : env.clientId ≠ "") (hcs : env.clientSecret ≠ "")
    (hat : env.accessToken ≠ "") (hst : ¬ (net.getResp 0).status = 401) :
    strava_get_activity env net id =
      (some (JSON.obj [("status", JSON.num (net.getResp 0).status),
                       ("data", parsedData (net.getResp 0))]),
       [Event.stravaGet (stravaUrlFirst id) ("Bearer " ++ env.accessToken)]) := by
  simp only [strava_get_activity, strava_core]
  rw [if_pos ((missing_nil_iff env).mpr ⟨hci, hcs, Or.inr hat⟩), if_neg (by tauto)]
  simp only [strava_core_after]
  rw [if_neg (by tauto)]
  simp [stravaShape]

/-- Accessor run, static access token, first GET 401, refresh succeeds: two
GETs, one refresh, envelope with the refreshed triple. -/
theorem strava_run_static_retry (env : StravaEnv) (net : StravaNet) (id : String)
    (hci : env.clientId ≠ "") (hcs : env.clientSecret ≠ "")
    (hat : env.accessToken ≠ "") (hrt : env.refreshToken ≠ "")
    (h401 : (net.getResp 0).status = 401)
    (hok : refreshSucceeds (net.refreshResp 0) = true) :
    strava_get_activity env net id =
      (some (JSON.obj [("status", JSON.num (net.getResp 1).status),
                       ("data", parsedData (net.getResp 1)),
                       ("refreshed_token", tripleOf (net.refreshResp 0))]),
       [Event.stravaGet (stravaUrlFirst id) ("Bearer " ++ env.accessToken),
        Event.refreshPost STRAVA_OAUTH_URL (refreshPayload env),
        Event.stravaGet (stravaUrlRetry id) ("Bearer " ++ accessTokenOf (net.refreshResp 0))]) := by
  obtain ⟨fs, hfs⟩ := isObjJSON_exists
    (show isObjJSON (parsedData (net.refreshResp 0)) = true by
      simp only [refreshSucceeds, Bool.and_eq_true] at hok; exact hok.2)
  simp only [strava_get_activity, strava_core]
  rw [if_pos ((missing_nil_iff env).mpr ⟨hci, hcs, Or.inl hrt⟩), if_neg (by tauto)]
  simp only [strava_core_after]
  rw [if_pos ⟨h401, hrt⟩, refresh_ok hci hcs hrt hok]
  simp only [hasKey_statusData, Bool.false_eq_true, if_false,
    tokenFromRefreshed_statusData (net.refreshResp 0) fs hfs,
    stravaShape_refreshed (net.getResp 1) (net.refreshResp 0) _ fs hfs]
  simp

/-- Accessor run, no static access token, first GET not 401: an acquisition
refresh precedes the single GET and the envelope carries the triple. -/
theorem strava_run_acquire_noRetry (env : StravaEnv) (net : StravaNet) (id : String)
    (hci : env.clientId ≠ "") (hcs : env.clientSecret ≠ "")
    (hat : env.accessToken = "") (hrt : env.refreshToken ≠ "")
    (hok : refreshSucceeds (net.refreshResp 0) = true)
    (hst : ¬ (net.getResp 0).status = 401) :
    strava_get_activity env net id =
      (some (JSON.obj [("status", JSON.num (net.getResp 0).status),
                       ("data", parsedData (net.getResp 0)),
                       ("refreshed_token", tripleOf (net.refreshResp 0))]),
       [Event.refreshPost STRAVA_OAUTH_URL (refreshPayload env),
        Event.stravaGet (stravaUrlFirst id) ("Bearer " ++ accessTokenOf (net.refreshResp 0))]) := by
  obtain ⟨fs, hfs⟩ := isObjJSON_exists
    (show isObjJSON (parsedData (net.refreshResp 0)) = true by
      simp only [refreshSucceeds, Bool.and_eq_true] at hok; exact hok.2)
  simp only [strava_get_activity, strava_core]
  rw [if_pos ((missing_nil_iff env).mpr ⟨hci, hcs, Or.inl hrt⟩), if_pos ⟨hat, hrt⟩,
    refresh_ok hci hcs hrt hok]
  simp only [hasKey_statusData, Bool.false_eq_true, if_false,
    tokenFromRefreshed_statusData (net.refreshResp 0) fs hfs]
  simp only [strava_core_after]
  rw [if_neg (by tauto),
    stravaShape_refreshed (net.getResp 0) (net.refreshResp 0) _ fs hfs]
  simp

/-- Accessor run, no static access token, first GET 401, both refreshes
succeed: two refreshes, two GETs, envelope with the second triple. -/
theorem strava_run_acquire_retry (env : StravaEnv) (net : StravaNet) (id : String)
    (hci : env.clientId ≠ "") (hcs : env.clientSecret ≠ "")
    (hat : env.accessToken = "") (hrt : env.refreshToken ≠ "")
    (hok0 : refreshSucceeds (net.refreshResp 0) = true)
    (hok1 : refreshSucceeds (net.refreshResp 1) = true)
    (h401 : (net.getResp 0).status = 401) :
    strava_get_activity env net id =
      (some (JSON.obj [("status", JSON.num (net.getResp 1).status),
                       ("data", parsedData (net.getResp 1)),
                       ("refreshed_token", tripleOf (net.refreshResp 1))]),
       [Event.refreshPost STRAVA_OAUTH_URL (refreshPayload env),
        Event.stravaGet (stravaUrlFirst id) ("Bearer " ++ accessTokenOf (net.refreshResp 0)),
        Event.refreshPost STRAVA_OAUTH_URL (refreshPayload env),
        Event.stravaGet (stravaUrlRetry id) ("Bearer " ++ accessTokenOf (net.refreshResp 1))]) := by
  obtain ⟨fs0, hfs0⟩ := isObjJSON_exists
    (show isObjJSON (parsedData (net.refreshResp 0)) = true by
      simp only [refreshSucceeds, Bool.and_eq_true] at hok0; exact hok0.2)
  obtain ⟨fs1, hfs1⟩ := isObjJSON_exists
    (show isObjJSON (parsedData (net.refreshResp 1)) = true by
      simp only [refreshSucceeds, Bool.and_eq_true] at hok1; exact hok1.2)
  simp only [strava_get_activity, strava_core]
  rw [if_pos ((missing_nil_iff env).mpr ⟨hci, hcs, Or.inl hrt⟩), if_pos ⟨hat, hrt⟩,
    refresh_ok hci hcs hrt hok0]
  simp only [hasKey_statusData, Bool.false_eq_true, if_false,
    tokenFromRefreshed_statusData (net.refreshResp 0) fs0 hfs0]
  simp only [strava_core_after]
  rw [if_pos ⟨h401, hrt⟩, refresh_ok hci hcs hrt hok1]
  simp only [hasKey_statusData, Bool.false_eq_true, if_false,
    tokenFromRefreshed_statusData (net.refreshResp 1) fs1 hfs1,
    stravaShape_refreshed (net.getResp 1) (net.refreshResp 1) _ fs1 hfs1]
  simp

/-- The post-acquisition phase of the accessor only consults the refresh unit
when a refresh token is configured, so two refresh units agreeing under that
condition give identical runs. -/
theorem strava_core_after_congr (f g : StravaEnv → HTTPResponse → JSON × List Event)
    (env : StravaEnv) (net : StravaNet) (id token : String)
    (refreshed0 : Option JSON) (ridx : Nat) (evs0 : List Event)
    (h : env.refreshToken ≠ "" → f env (net.refreshResp ridx) = g env (net.refreshResp ridx)) :
    strava_core_after f env net id token refreshed0 ridx evs0 =
    strava_core_after g env net id token refreshed0 ridx evs0 := by
  simp only [strava_core_after]
  by_cases hc : (net.getResp 0).status = 401 ∧ env.refreshToken ≠ ""
  · rw [if_pos hc, if_pos hc, h hc.2]
  · rw [if_neg hc, if_neg hc]

/-! Claim theorems. -/

/-- Claim C1, counterexample: the claim asserts that a call whose first
resource request returns status 200 issues zero token-refresh POSTs.  With a
refresh token configured but no static access token, the accessor performs an
acquisition refresh before the first GET: here the first (and only) resource
request returns 200, yet one refresh POST was issued. -/
theorem C1_counterexample :
    (net200.getResp 0).status = 200 ∧
    countGets (strava_get_activity envNoAccess net200 "42").2 = 1 ∧
    countRefreshes (strava_get_activity envNoAccess net200 "42").2 = 1 :=
  ⟨rfl, rfl, rfl⟩

/-- Claim C1, amended: when a static access token and a refresh token are
both configured (with client id and secret), a call whose first resource
request returns 401 and whose ensuing refresh succeeds issues exactly two
resource GETs and one refresh POST, and a call whose first resource request
returns 200 issues exactly one resource GET and zero refresh POSTs. -/
theorem C1_amended (env : StravaEnv) (net : StravaNet) (id : String)
    (hci : env.clientId ≠ "") (hcs : env.clientSecret ≠ "")
    (hat : env.accessToken ≠ "") (hrt : env.refreshToken ≠ "") :
    ((net.getResp 0).status = 401 → refreshSucceeds (net.refreshResp 0) = true →
       countGets (strava_get_activity env net id).2 = 2 ∧
       countRefreshes (strava_get_activity env net id).2 = 1) ∧
    ((net.getResp 0).status = 200 →
       countGets (strava_get_activity env net id).2 = 1 ∧
       countRefreshes (strava_get_activity env net id).2 = 0) := by
  constructor
  · intro h401 hok
    rw [strava_run_static_retry env net id hci hcs hat hrt h401 hok]
    simp [countGets, countRefreshes]
  · intro h200
    rw [strava_run_static_noRetry env net id hci hcs hat (by omega)]
    simp [countGets, countRefreshes]

/-- Claim C1, witness: the amended claim at a fully configured environment,
for a 401-then-retry oracle and for an all-200 oracle. -/
theorem C1_witness :
    (countGets (strava_get_activity envFull net401 "42").2 = 2 ∧
     countRefreshes (strava_get_activity envFull net401 "42").2 = 1) ∧
    (countGets (strava_get_activity envFull net200 "42").2 = 1 ∧
     countRefreshes (strava_get_activity envFull net200 "42").2 = 0) :=
  ⟨(C1_amended envFull net401 "42" (by decide) (by decide) (by decide) (by decide)).1 rfl rfl,
   (C1_amended envFull net200 "42" (by decide) (by decide) (by decide) (by decide)).2 rfl⟩

/-- Claim C2: with the primary API key unset, each of the six exposed tools
returns exactly the `Missing INTERVALS_API_KEY env var` error object and
issues no outbound HTTP request (empty trace), for every oracle and every
argument. -/
theorem C2_missing_key_no_request (env : PrimEnv) (h : env.apiKey = "") :
    (∀ today resp, get_last4w_events env today resp = (errMissingKey, [])) ∧
    (∀ resp oldest newest, get_events env resp oldest newest = (errMissingKey, [])) ∧
    (∀ resp category sdl ty nm de,
       create_event env resp category sdl ty nm de = (errMissingKey, [])) ∧
    (∀ resp oldest newest, get_wellness_records env resp oldest newest = (errMissingKey, [])) ∧
    (∀ resp senv snet id, get_activity env resp senv snet id = (some errMissingKey, [])) ∧
    (∀ resp id, get_activity_comments env resp id = (errMissingKey, [])) := by
  refine ⟨fun _ _ => ?_, fun _ _ _ => ?_, fun _ _ _ _ _ _ => ?_, fun _ _ _ => ?_,
          fun _ _ _ _ => ?_, fun _ _ => ?_⟩ <;>
    simp [get_last4w_events, get_events, create_event, get_wellness_records,
          get_activity, get_activity_comments, h]

/-- Claim C2, witness: `get_events` with an empty key at concrete inputs. -/
theorem C2_witness :
    get_events ⟨"", "ath"⟩ sampleAct "2024-01-01" "2024-01-02" = (errMissingKey, []) :=
  (C2_missing_key_no_request ⟨"", "ath"⟩ rfl).2.1 sampleAct "2024-01-01" "2024-01-02"

/-- Claim C3: with the primary key configured, a date argument failing the
`YYYY-MM-DD` pattern makes `get_events` and `get_wellness_records` return the
validation error object with an empty trace, and a `start_date_local`
failing the `YYYY-MM-DDTHH:MM:SS` pattern does the same for `create_event`. -/
theorem C3_validation_no_request (env : PrimEnv) (hk : env.apiKey ≠ "") :
    (∀ resp oldest newest,
       DATE_RE_match oldest = false ∨ DATE_RE_match newest = false →
       get_events env resp oldest newest = (dateFormatErr, []) ∧
       get_wellness_records env resp oldest newest = (dateFormatErr, [])) ∧
    (∀ resp category sdl ty nm de, DATETIME_RE_match sdl = false →
       create_event env resp category sdl ty nm de = (datetimeFormatErr, [])) := by
  constructor
  · intro resp oldest newest h
    have hc : (!DATE_RE_match oldest || !DATE_RE_match newest) = true := by
      rcases h with h | h <;> simp [h]
    constructor
    · simp only [get_events]
      rw [if_neg hk, if_pos hc]
    · simp only [get_wellness_records]
      rw [if_neg hk, if_pos hc]
  · intro resp category sdl ty nm de h
    have hc : (!DATETIME_RE_match sdl) = true := by simp [h]
    simp only [create_event]
    rw [if_neg hk, if_pos hc]

/-- Claim C3, witness: a malformed `oldest` at concrete inputs. -/
theorem C3_witness :
    get_events ⟨"k", "ath"⟩ sampleAct "bad" "2024-01-02" = (dateFormatErr, []) ∧
    get_wellness_records ⟨"k", "ath"⟩ sampleAct "bad" "2024-01-02" = (dateFormatErr, []) :=
  (C3_validation_no_request ⟨"k", "ath"⟩ (by decide)).1 sampleAct "bad" "2024-01-02"
    (Or.inl (by decide))

/-- Claim C4: when the primary response body is the STRAVA stub (both
sentinel fields), `get_activity` invokes the accessor for the same id (its
requests follow the primary GET in the trace) and the envelope carries both
`data` and `strava`; when the body is not the stub, the accessor is not
invoked (the trace is the single primary GET) and the envelope has no
`strava` key. -/
theorem C4_strava_dispatch (env : PrimEnv) (resp : HTTPResponse) (senv : StravaEnv)
    (snet : StravaNet) (id : String) (hk : env.apiKey ≠ "") :
    (isStravaStub (parsedData resp) = true →
       (get_activity env resp senv snet id).2 =
         Event.primGet (activityUrl id) [] "API_KEY" env.apiKey ::
           (strava_get_activity senv snet id).2 ∧
       (∀ s, (strava_get_activity senv snet id).1 = some s →
          (get_activity env resp senv snet id).1 =
            some (JSON.obj [("status", JSON.num resp.status),
                            ("data", parsedData resp), ("strava", s)]))) ∧
    (isStravaStub (parsedData resp) = false →
       get_activity env resp senv snet id =
         (some (JSON.obj [("status", JSON.num resp.status), ("data", parsedData resp)]),
          [Event.primGet (activityUrl id) [] "API_KEY" env.apiKey])) := by
  constructor
  · intro hstub
    cases hsg : strava_get_activity senv snet id with
    | mk o sevs =>
      cases o with
      | some s =>
        refine ⟨by simp [get_activity, hk, hstub, hsg], ?_⟩
        intro s2 hs2
        simp at hs2
        subst hs2
        simp [get_activity, hk, hstub, hsg]
      | none =>
        refine ⟨by simp [get_activity, hk, hstub, hsg], ?_⟩
        intro s2 hs2
        simp at hs2
  · intro hstub
    simp [get_activity, hk, hstub]

/-- Claim C4, witness: the stub body at concrete inputs chains the accessor
trace after the primary GET. -/
theorem C4_witness :
    (get_activity ⟨"k", "ath"⟩ sampleStub envFull net200 "42").2 =
      Event.primGet (activityUrl "42") [] "API_KEY" "k" ::
        (strava_get_activity envFull net200 "42").2 :=
  ((C4_strava_dispatch ⟨"k", "ath"⟩ sampleStub envFull net200 "42" (by decide)).1 rfl).1

/-- Claim C5: with the key configured, `get_last4w_events` requests the
athlete events URL with `oldest` the Berlin civil date minus 28 days and
`newest` the Berlin civil date (the injected clock); at the Berlin date
2024-06-15 this is oldest 2024-05-18 and newest 2024-06-15. -/
theorem C5_last4w_range (env : PrimEnv) (today : CivilDate) (resp : HTTPResponse)
    (hk : env.apiKey ≠ "") :
    get_last4w_events env today resp =
      (JSON.obj [("request", JSON.obj
          [("url", JSON.str (eventsUrl env.athleteId)),
           ("params", paramsJSON [("oldest", isoformat (subDays today 28)),
                                  ("newest", isoformat today)]),
           ("status", JSON.num resp.status)]),
        ("data", parsedData resp)],
       [Event.primGet (eventsUrl env.athleteId)
          [("oldest", isoformat (subDays today 28)), ("newest", isoformat today)]
          "API_KEY" env.apiKey]) ∧
    isoformat (subDays ⟨2024, 6, 15⟩ 28) = "2024-05-18" ∧
    isoformat (⟨2024, 6, 15⟩ : CivilDate) = "2024-06-15" := by
  refine ⟨?_, by decide, by decide⟩
  simp [get_last4w_events, hk]

/-- Claim C5, witness: at the Berlin date 2024-06-15 the issued request
carries oldest 2024-05-18 and newest 2024-06-15. -/
theorem C5_witness :
    (get_last4w_events ⟨"k", "ath"⟩ ⟨2024, 6, 15⟩ sampleAct).2 =
      [Event.primGet (eventsUrl "ath") [("oldest", "2024-05-18"), ("newest", "2024-06-15")]
         "API_KEY" "k"] := by
  have h := C5_last4w_range ⟨"k", "ath"⟩ ⟨2024, 6, 15⟩ sampleAct (by decide)
  rw [h.1, h.2.1, h.2.2]

/-- Claim C7, counterexample: the claim asserts the refresh unit's error
names the absent fields and not the others.  The code returns one fixed
message naming all three fields: with only the client id absent and with only
the client secret absent the error is identical, so it names fields that are
present. -/
theorem C7_counterexample :
    refresh_strava_token ⟨"", "csec", "atok", "rtok"⟩ sampleRefreshOk = (stravaConfigErr, []) ∧
    refresh_strava_token ⟨"cid", "", "atok", "rtok"⟩ sampleRefreshOk = (stravaConfigErr, []) :=
  ⟨rfl, rfl⟩

/-- Claim C7, amended: whenever any of client id, client secret, or refresh
token is absent, `_refresh_strava_token` fails immediately with the fixed
error naming all three fields
(`Missing STRAVA_CLIENT_ID/STRAVA_CLIENT_SECRET/STRAVA_REFRESH_TOKEN`),
regardless of which are missing, and performs no network call. -/
theorem C7_amended (env : StravaEnv) (r : HTTPResponse)
    (h : env.clientId = "" ∨ env.clientSecret = "" ∨ env.refreshToken = "") :
    refresh_strava_token env r = (stravaConfigErr, []) := by
  unfold refresh_strava_token
  rw [if_pos h]
  rfl

/-- Claim C7, witness: only the refresh token absent. -/
theorem C7_witness :
    refresh_strava_token ⟨"cid", "csec", "atok", ""⟩ sampleRefreshOk = (stravaConfigErr, []) :=
  C7_amended ⟨"cid", "csec", "atok", ""⟩ sampleRefreshOk (Or.inr (Or.inr rfl))

/-- Claim C8, counterexample: the claim asserts every tool's envelope
contains the request url.  The `get_events` envelope on the outbound path is
exactly status/request.params/data, with no `url` key at the top level nor
inside `request`. -/
theorem C8_counterexample :
    (get_events ⟨"k", "ath"⟩ sampleAct "2024-01-01" "2024-01-02").1 =
      JSON.obj [("status", JSON.num 200),
                ("request", JSON.obj [("params",
                   paramsJSON [("oldest", "2024-01-01"), ("newest", "2024-01-02")])]),
                ("data", parsedData sampleAct)] ∧
    hasKey (get_events ⟨"k", "ath"⟩ sampleAct "2024-01-01" "2024-01-02").1 "url" = false ∧
    (objGet (get_events ⟨"k", "ath"⟩ sampleAct "2024-01-01" "2024-01-02").1 "request").map
      (fun j => hasKey j "url") = some false :=
  ⟨rfl, rfl, rfl⟩

/-- Claim C8, amended: on every path reaching the outbound call each tool's
envelope contains the response status and the parsed-or-raw data, but the
url/params/payload components vary by tool: `get_last4w_events` nests url,
params and status under `request`; `get_events` and `get_wellness_records`
carry only `request.params`; `create_event` carries `request.url` and
`request.payload`; `get_activity` and `get_activity_comments` carry neither
url nor params. -/
theorem C8_amended (env : PrimEnv) (today : CivilDate) (resp : HTTPResponse)
    (senv : StravaEnv) (snet : StravaNet)
    (oldest newest category sdl ty nm de id : String)
    (hk : env.apiKey ≠ "")
    (ho : DATE_RE_match oldest = true) (hn : DATE_RE_match newest = true)
    (hs : DATETIME_RE_match sdl = true) :
    (get_last4w_events env today resp).1 =
      JSON.obj [("request", JSON.obj
          [("url", JSON.str (eventsUrl env.athleteId)),
           ("params", paramsJSON [("oldest", isoformat (subDays today 28)),
                                  ("newest", isoformat today)]),
           ("status", JSON.num resp.status)]),
        ("data", parsedData resp)] ∧
    (get_events env resp oldest newest).1 =
      JSON.obj [("status", JSON.num resp.status),
                ("request", JSON.obj [("params",
                   paramsJSON [("oldest", oldest), ("newest", newest)])]),
                ("data", parsedData resp)] ∧
    (create_event env resp category sdl ty nm de).1 =
      JSON.obj [("status", JSON.num resp.status),
                ("request", JSON.obj [("url", JSON.str (eventsUrl env.athleteId)),
                   ("payload", JSON.obj [("category", JSON.str category),
                      ("start_date_local", JSON.str sdl),
                      ("type", JSON.str ty),
                      ("name", JSON.str nm),
                      ("description", JSON.str de)])]),
                ("data", parsedData resp)] ∧
    (get_wellness_records env resp oldest newest).1 =
      JSON.obj [("status", JSON.num resp.status),
                ("request", JSON.obj [("params",
                   paramsJSON [("oldest", oldest), ("newest", newest)])]),
                ("data", parsedData resp)] ∧
    (∀ j, (get_activity env resp senv snet id).1 = some j →
       objGet j "status" = some (JSON.num resp.status) ∧
       objGet j "data" = some (parsedData resp)) ∧
    (get_activity_comments env resp id).1 =
      JSON.obj [("status", JSON.num resp.status), ("data", parsedData resp)] := by
  refine ⟨by simp [get_last4w_events, hk], by simp [get_events, hk, ho, hn],
          by simp [create_event, hk, hs], by simp [get_wellness_records, hk, ho, hn],
          ?_, by simp [get_activity_comments, hk]⟩
  intro j hj
  by_cases hstub : isStravaStub (parsedData resp) = true
  · cases hsg : strava_get_activity senv snet id with
    | mk o sevs =>
      cases o with
      | some s =>
        simp [get_activity, hk, hstub, hsg] at hj
        subst hj
        simp [objGet, lookupField]
      | none =>
        simp [get_activity, hk, hstub, hsg] at hj
  · simp only [Bool.not_eq_true] at hstub
    simp [get_activity, hk, hstub] at hj
    subst hj
    simp [objGet, lookupField]

/-- Claim C8, witness: the `get_activity_comments` envelope at concrete
inputs is exactly status and data. -/
theorem C8_witness :
    (get_activity_comments ⟨"k", "ath"⟩ sampleAct "42").1 =
      JSON.obj [("status", JSON.num sampleAct.status), ("data", parsedData sampleAct)] :=
  (C8_amended ⟨"k", "ath"⟩ ⟨2024, 6, 15⟩ sampleAct envFull net200
    "2024-01-01" "2024-01-02" "WORKOUT" "2024-01-01T10:00:00" "Ride" "w" "" "42"
    (by decide) (by decide) (by decide) (by decide)).2.2.2.2.2

/-- Claim C9, counterexample: the claim asserts every accessor call in which
a refresh occurred includes the refreshed triple in its result.  Here the
acquisition refresh succeeds, the GET returns 401 and the retry refresh
fails, so two refresh POSTs occurred (the first successful) yet the returned
error result has no `refreshed_token` key. -/
theorem C9_counterexample :
    countRefreshes (strava_get_activity envNoAccess net401badRefresh "42").2 = 2 ∧
    ((strava_get_activity envNoAccess net401badRefresh "42").1.map
       (fun j => hasKey j "refreshed_token")) = some false :=
  ⟨rfl, rfl⟩

/-- Claim C9, amended: when every refresh succeeds, any call in which a
refresh occurred (no static access token, or a 401 on the first GET) returns
an envelope whose `refreshed_token` is the triple of the last refresh
response; and the accessor never persists tokens: with no static access
token configured, every call performs at least one fresh refresh POST of its
own. -/
theorem C9_amended (env : StravaEnv) (net : StravaNet) (id : String)
    (hci : env.clientId ≠ "") (hcs : env.clientSecret ≠ "") (hrt : env.refreshToken ≠ "")
    (hok : ∀ n, refreshSucceeds (net.refreshResp n) = true) :
    (env.accessToken = "" ∨ (net.getResp 0).status = 401 →
       (strava_get_activity env net id).1.map (fun j => objGet j "refreshed_token") =
         some (some (tripleOf (net.refreshResp
           (if (net.getResp 0).status = 401 then (if env.accessToken = "" then 1 else 0)
            else 0))))) ∧
    (env.accessToken = "" → 1 ≤ countRefreshes (strava_get_activity env net id).2) := by
  constructor
  · intro hcase
    by_cases hat : env.accessToken = ""
    · by_cases h401 : (net.getResp 0).status = 401
      · rw [strava_run_acquire_retry env net id hci hcs hat hrt (hok 0) (hok 1) h401]
        simp [objGet, lookupField, hat, h401]
      · rw [strava_run_acquire_noRetry env net id hci hcs hat hrt (hok 0) h401]
        simp [objGet, lookupField, hat, h401]
    · have h401 : (net.getResp 0).status = 401 := by tauto
      rw [strava_run_static_retry env net id hci hcs hat hrt h401 (hok 0)]
      simp [objGet, lookupField, hat, h401]
  · intro hat
    by_cases h401 : (net.getResp 0).status = 401
    · rw [strava_run_acquire_retry env net id hci hcs hat hrt (hok 0) (hok 1) h401]
      simp [countRefreshes]
    · rw [strava_run_acquire_noRetry env net id hci hcs hat hrt (hok 0) h401]
      simp [countRefreshes]

/-- Claim C9, witness: with no static access token and an all-200 oracle the
result embeds the refreshed triple and a fresh refresh POST occurred. -/
theorem C9_witness :
    (strava_get_activity envNoAccess net200 "42").1.map
        (fun j => objGet j "refreshed_token") = some (some (tripleOf sampleRefreshOk)) ∧
    1 ≤ countRefreshes (strava_get_activity envNoAccess net200 "42").2 :=
  ⟨((C9_amended envNoAccess net200 "42" (by decide) (by decide) (by decide)
       (fun _ => rfl)).1 (Or.inl rfl)).trans (by rfl),
   (C9_amended envNoAccess net200 "42" (by decide) (by decide) (by decide)
       (fun _ => rfl)).2 rfl⟩

/-- Claim C10: every invocation of the refresh unit from inside the accessor
happens with client id, client secret, and refresh token all present, so the
accessor's behavior is unchanged when the refresh unit's missing-configuration
branch is removed: that branch is unreachable from the accessor. -/
theorem C10_refresh_guard_unreachable (env : StravaEnv) (net : StravaNet) (id : String) :
    strava_get_activity env net id = strava_core refresh_strava_token_unguarded env net id := by
  simp only [strava_get_activity, strava_core]
  by_cases hm : missing_strava_config env = []
  · rw [if_pos hm, if_pos hm]
    obtain ⟨hci, hcs, hor⟩ := (missing_nil_iff env).mp hm
    have hrw : ∀ r, env.refreshToken ≠ "" →
        refresh_strava_token env r = refresh_strava_token_unguarded env r := by
      intro r hrt
      unfold refresh_strava_token
      rw [if_neg (by tauto)]
    by_cases hacq : env.accessToken = "" ∧ env.refreshToken ≠ ""
    · rw [if_pos hacq, if_pos hacq, hrw _ hacq.2]
      cases refresh_strava_token_unguarded env (net.refreshResp 0) with
      | mk res evs =>
        by_cases he : hasKey res "error" = true
        · rw [if_pos he, if_pos he]
        · rw [if_neg he, if_neg he]
          cases htk : tokenFromRefreshed res with
          | none => rfl
          | some tok =>
            exact strava_core_after_congr _ _ env net id tok (some res) 1 evs
              (fun hrt => hrw _ hrt)
    · rw [if_neg hacq, if_neg hacq]
      exact strava_core_after_congr _ _ env net id env.accessToken none 0 []
        (fun hrt => hrw _ hrt)
  · rw [if_neg hm, if_neg hm]

theorem stravaGets_append (a b : List Event) :
    stravaGets (a ++ b) = stravaGets a ++ stravaGets b := by
  induction a with
  | nil => rfl
  | cons e tr ih => cases e <;> simp [stravaGets, ih]

theorem stravaShape_trace (r : HTTPResponse) (refreshed : Option JSON) (evs : List Event) :
    (stravaShape r refreshed evs).2 = evs := by
  cases refreshed with
  | none => rfl
  | some res =>
    simp only [stravaShape]
    by_cases h : hasKey res "data" = true
    · rw [if_pos h]
      cases objGet res "data" with
      | none => rfl
      | some v => cases v <;> rfl
    · rw [if_neg h]

theorem refresh_trace_no_gets (env : StravaEnv) (r : HTTPResponse) :
    stravaGets (refresh_strava_token env r).2 = [] := by
  unfold refresh_strava_token refresh_strava_token_unguarded
  by_cases h : env.clientId = "" ∨ env.clientSecret = "" ∨ env.refreshToken = ""
  · rw [if_pos h]; rfl
  · rw [if_neg h]
    by_cases h4 : 400 ≤ r.status
    · rw [if_pos h4]; rfl
    · rw [if_neg h4]; rfl

theorem strava_core_after_trace (f : StravaEnv → HTTPResponse → JSON × List Event)
    (env : StravaEnv) (net : StravaNet) (id token : String)
    (refreshed0 : Option JSON) (ridx : Nat) (evs0 : List Event) :
    ∃ rest, (strava_core_after f env net id token refreshed0 ridx evs0).2 =
      evs0 ++ Event.stravaGet (stravaUrlFirst id) ("Bearer " ++ token) :: rest := by
  simp only [strava_core_after]
  by_cases hc : (net.getResp 0).status = 401 ∧ env.refreshToken ≠ ""
  · rw [if_pos hc]
    cases f env (net.refreshResp ridx) with
    | mk res2 evsR =>
      by_cases he : hasKey res2 "error" = true
      · rw [if_pos he]
        exact ⟨evsR, by simp⟩
      · rw [if_neg he]
        cases tokenFromRefreshed res2 with
        | none => exact ⟨evsR, by simp⟩
        | some tok2 =>
          refine ⟨evsR ++ [Event.stravaGet (stravaUrlRetry id) ("Bearer " ++ tok2)], ?_⟩
          rw [stravaShape_trace]
          simp
  · rw [if_neg hc]
    exact ⟨[], by rw [stravaShape_trace]⟩

theorem strava_first_get_url (env : StravaEnv) (net : StravaNet) (id : String) :
    ∀ u b, (stravaGets (strava_get_activity env net id).2).head? = some (u, b) →
      u = stravaUrlFirst id := by
  intro u b h
  simp only [strava_get_activity, strava_core] at h
  by_cases hm : missing_strava_config env = []
  · rw [if_pos hm] at h
    by_cases hacq : env.accessToken = "" ∧ env.refreshToken ≠ ""
    · rw [if_pos hacq] at h
      cases hres : refresh_strava_token env (net.refreshResp 0) with
      | mk res evs =>
        rw [hres] at h
        have hre : stravaGets evs = [] := by
          have := refresh_trace_no_gets env (net.refreshResp 0)
          rw [hres] at this
          exact this
        by_cases he : hasKey res "error" = true
        · rw [if_pos he] at h
          simp [hre] at h
        · rw [if_neg he] at h
          cases htk : tokenFromRefreshed res with
          | none =>
            rw [htk] at h
            simp [hre] at h
          | some tok =>
            rw [htk] at h
            obtain ⟨rest, hrest⟩ := strava_core_after_trace
              refresh_strava_token env net id tok (some res) 1 evs
            rw [hrest, stravaGets_append, hre] at h
            simp [stravaGets] at h
            exact h.1.symm
    · rw [if_neg hacq] at h
      obtain ⟨rest, hrest⟩ := strava_core_after_trace
        refresh_strava_token env net id env.accessToken none 0 []
      rw [hrest] at h
      simp [stravaGets] at h
      exact h.1.symm
  · rw [if_neg hm] at h
    simp [stravaGets] at h

/-- Claim C6: in every accessor call, whenever any resource request is
issued, the first one targets `/activities/id?include_all_efforts=true`
(no assumptions on the credentials or the oracle); and when the
401-triggered retry occurs (first GET status 401, refresh token configured,
refreshes succeeding), the GET is reissued exactly once to `/activities/id`
without the query parameter, with the bearer header replaced by the access
token of the refresh response. -/
theorem C6_retry_urls (env : StravaEnv) (net : StravaNet) (id : String) :
    (∀ u b, (stravaGets (strava_get_activity env net id).2).head? = some (u, b) →
       u = stravaUrlFirst id) ∧
    (env.clientId ≠ "" → env.clientSecret ≠ "" → env.refreshToken ≠ "" →
     (∀ n, refreshSucceeds (net.refreshResp n) = true) →
     (net.getResp 0).status = 401 →
       stravaGets (strava_get_activity env net id).2 =
         [(stravaUrlFirst id,
           "Bearer " ++ (if env.accessToken = "" then accessTokenOf (net.refreshResp 0)
                         else env.accessToken)),
          (stravaUrlRetry id,
           "Bearer " ++ accessTokenOf (net.refreshResp
             (if env.accessToken = "" then 1 else 0)))]) := by
  refine ⟨strava_first_get_url env net id, ?_⟩
  intro hci hcs hrt hok h401
  by_cases hat : env.accessToken = ""
  · rw [strava_run_acquire_retry env net id hci hcs hat hrt (hok 0) (hok 1) h401]
    simp [stravaGets, hat]
  · rw [strava_run_static_retry env net id hci hcs hat hrt h401 (hok 0)]
    simp [stravaGets, hat]

/-- Claim C6, witness: a static-token-only environment still sends its first
GET to the query-parameter URL, and the concrete 401-retry run issues exactly
the two GETs with and then without the query parameter, the second under the
refreshed token. -/
theorem C6_witness :
    stravaUrlFirst "42" = stravaUrlFirst "42" ∧
    stravaGets (strava_get_activity envFull net401 "42").2 =
      [(stravaUrlFirst "42", "Bearer atok"), (stravaUrlRetry "42", "Bearer tokNew")] :=
  ⟨(C6_retry_urls ⟨"cid", "csec", "atok", ""⟩ net200 "42").1 (stravaUrlFirst "42")
     "Bearer atok" rfl,
   ((C6_retry_urls envFull net401 "42").2 (by decide) (by decide) (by decide)
     (fun _ => rfl) rfl).trans (by decide)⟩

